import Mathlib

/-!
# MS5803 pressure / temperature sensor driver (`Core/Src/ms5803.c`)

A shallow embedding of the driver.  The target is a 32-bit ARM microcontroller:
`int` and `int32_t` are 32 bits wide, `int64_t` is 64 bits wide, `uint16_t` and
`uint8_t` operands are promoted to `int` before arithmetic.  Machine integers are
mathematical integers with an explicit reduction wherever a C operation can leave
the range of its type; signed overflow is modelled as two's-complement wrap-around.

The bus transport (`HAL_I2C_Master_Transmit`, `HAL_I2C_Master_Receive`, `HAL_Delay`)
is external.  A call is recorded in a trace of events, and what the transport
answers (status, received bytes) is given by an arbitrary environment that may
depend on the whole history of calls.
-/

namespace MS5803

/-! ## Machine arithmetic -/

/-- Conversion of an integer value to `uint8_t`. -/
def toU8 (x : Int) : Int := x % 256

/-- Conversion of an integer value to `uint16_t`. -/
def toU16 (x : Int) : Int := x % 65536

/-- Conversion of an integer value to `uint32_t` (also the result of every
`uint32_t` operation). -/
def toU32 (x : Int) : Int := x % 4294967296

/-- Conversion of an integer value to `int32_t` / `int`: two's-complement
wrap-around into `[-2^31, 2^31)`. -/
def toS32 (x : Int) : Int := (x + 2147483648) % 4294967296 - 2147483648

/-- Conversion of an integer value to `int64_t`: two's-complement wrap-around
into `[-2^63, 2^63)`. -/
def toS64 (x : Int) : Int :=
  (x + 9223372036854775808) % 18446744073709551616 - 9223372036854775808

/-- C integer division: the quotient is truncated toward zero. -/
def cdiv (a b : Int) : Int := Int.tdiv a b

/-! ## Declarations of `ms5803.h` and of the HAL -/

/-- Return type of the bus primitives, as the STM32 HAL declares it. -/
inductive HAL_StatusTypeDef where
  | HAL_OK
  | HAL_ERROR
  | HAL_BUSY
  | HAL_TIMEOUT
  deriving DecidableEq, Repr

/-- Modelled from the spec: the `measurement` enumeration of `ms5803.h` (a header
that is not among the sources), with the two enumerators `MS5803_get_values` uses. -/
inductive measurement where
  | PRESSURE
  | TEMPERATURE
  deriving DecidableEq, Repr

/-- Modelled from the spec: the `precision` enumeration of `ms5803.h` (a header that
is not among the sources), five oversampling tiers; the constructors are the `case`
labels of the `switch` in `MS5803_ADC`, in the order of the source. -/
inductive precision where
  | ADC_256
  | ADC_512
  | ADC_1024
  | ADC_2048
  | ADC_4096
  deriving DecidableEq, Repr

/-- The constants of `ms5803.h`, a header that is not among the sources: the device
address, the four command bytes and the numeric values of the two enumerations.
Their values are unknown, so they are parameters of the model. -/
structure Header where
  MS5803_ADDR : Nat
  MS5803_RESET : Nat
  MS5803_PROM : Nat
  MS5803_ADC_CONV : Nat
  MS5803_ADC_READ : Nat
  measurementValue : measurement → Nat
  precisionValue : precision → Nat

/-! ## The bus transport -/

/-- One call of a transport primitive, with the arguments the driver passed. -/
inductive Event where
  | transmit (devAddress : Int) (data : List Int) (size : Int) (timeout : Int)
  | receive (devAddress : Int) (size : Int) (timeout : Int)
  | delay (ms : Int)
  deriving DecidableEq, Repr

/-- What the transport answers.  Each answer may depend on the whole history of
calls, the current one included.  `rxByte h i` is the byte in cell `i` of the
receive buffer after the call (whatever the call left there, also on failure). -/
structure Env where
  txStatus : List Event → HAL_StatusTypeDef
  rxStatus : List Event → HAL_StatusTypeDef
  rxByte : List Event → Nat → Fin 256

/-- The call `HAL_I2C_Master_Transmit(handle, DevAddress, pData, Size, Timeout)`:
`buf` is the content of the buffer `pData` points to, of which the first `Size`
bytes are sent. -/
def HAL_I2C_Master_Transmit (env : Env) (tr : List Event) (devAddress : Int)
    (buf : List Int) (size : Int) (timeout : Int) : HAL_StatusTypeDef × List Event :=
  let tr1 := tr ++ [Event.transmit (toU16 devAddress) (buf.take size.toNat) (toU16 size)
    (toU32 timeout)]
  (env.txStatus tr1, tr1)

/-- The call `HAL_I2C_Master_Receive(handle, DevAddress, pData, Size, Timeout)`:
returns the status, the `Size` cells of the buffer as `uint8_t` values, and the
extended trace. -/
def HAL_I2C_Master_Receive (env : Env) (tr : List Event) (devAddress : Int)
    (size : Int) (timeout : Int) : HAL_StatusTypeDef × List Int × List Event :=
  let tr1 := tr ++ [Event.receive (toU16 devAddress) (toU16 size) (toU32 timeout)]
  (env.rxStatus tr1, (List.range size.toNat).map (fun i => ((env.rxByte tr1 i : Nat) : Int)), tr1)

/-- The call `HAL_Delay(Delay)`. -/
def HAL_Delay (tr : List Event) (ms : Int) : List Event :=
  tr ++ [Event.delay (toU32 ms)]

/-! ## The driver -/

/-- `MS5803_read`, lines 17-19. -/
def MS5803_read (hdr : Header) (env : Env) (tr : List Event) (len : Int) :
    HAL_StatusTypeDef × List Int × List Event :=
  HAL_I2C_Master_Receive env tr hdr.MS5803_ADDR (toU16 len) 1000

/-- `MS5803_write`, lines 28-30. -/
def MS5803_write (hdr : Header) (env : Env) (tr : List Event) (bufp : List Int) (len : Int) :
    HAL_StatusTypeDef × List Event :=
  HAL_I2C_Master_Transmit env tr hdr.MS5803_ADDR bufp (toU16 len) 1000

/-- `MS5803_reset`, lines 37-43: returns the status and the extended trace. -/
def MS5803_reset (hdr : Header) (env : Env) (tr : List Event) :
    HAL_StatusTypeDef × List Event :=
  let buf0 := toU8 hdr.MS5803_RESET
  let r := HAL_I2C_Master_Transmit env tr hdr.MS5803_ADDR [buf0] 1 1000
  let tr2 := HAL_Delay r.2 3
  (r.1, tr2)

/-- The value `MS5803_coeff` stores into `*coeff` (line 59) from the two cells of
`c`: `(c[0] << 8) + c[1]` in `int`, converted to `uint16_t`. -/
def coeff_assemble (c0 c1 : Int) : Int :=
  toU16 (toS32 (toS32 (c0 * 256) + c1))

/-- `MS5803_coeff`, lines 52-61: returns the status, the value stored into
`*coeff` and the extended trace.  `value` is the `uint8_t` coefficient number. -/
def MS5803_coeff (hdr : Header) (env : Env) (tr : List Event) (value : Nat) :
    HAL_StatusTypeDef × Int × List Event :=
  let buf0 := toU8 (toS32 (hdr.MS5803_PROM + toS32 ((value : Int) * 2)))
  -- HAL_StatusTypeDef x = MS5803_write(handle, buf, 1);
  let w := MS5803_write hdr env tr [buf0] 1
  let _x := w.1
  let tr2 := HAL_Delay w.2 2
  -- x = MS5803_read(handle, c, 2);
  let r := MS5803_read hdr env tr2 2
  let x := r.1
  let coeff := coeff_assemble (r.2.1.getD 0 0) (r.2.1.getD 1 0)
  (x, coeff, r.2.2)

/-- The `switch (prec)` of `MS5803_ADC`, lines 76-82.  No `case` ends in `break`,
so control entering at a label runs every `HAL_Delay` from there to the end. -/
def ADC_switch (tr : List Event) : precision → List Event
  | precision.ADC_256 =>
      HAL_Delay (HAL_Delay (HAL_Delay (HAL_Delay (HAL_Delay tr 1) 3) 4) 6) 10
  | precision.ADC_512 => HAL_Delay (HAL_Delay (HAL_Delay (HAL_Delay tr 3) 4) 6) 10
  | precision.ADC_1024 => HAL_Delay (HAL_Delay (HAL_Delay tr 4) 6) 10
  | precision.ADC_2048 => HAL_Delay (HAL_Delay tr 6) 10
  | precision.ADC_4096 => HAL_Delay tr 10

/-- The value `MS5803_ADC` returns (line 88) from the three cells of `c`:
`(c[0] << 16) + (c[1] << 8) + c[2]` in `int`, converted to `uint32_t`. -/
def ADC_assemble (c0 c1 c2 : Int) : Int :=
  toU32 (toS32 (toS32 (toS32 (c0 * 65536) + toS32 (c1 * 256)) + c2))

/-- `MS5803_ADC`, lines 70-90: returns the raw value and the extended trace. -/
def MS5803_ADC (hdr : Header) (env : Env) (tr : List Event) (type : measurement)
    (prec : precision) : Int × List Event :=
  let buf0 := toU8 (toS32 (toS32 (hdr.MS5803_ADC_CONV + hdr.measurementValue type)
    + hdr.precisionValue prec))
  let w1 := MS5803_write hdr env tr [buf0] 1
  let tr2 := HAL_Delay w1.2 1
  let tr3 := ADC_switch tr2 prec
  let buf0 := toU8 hdr.MS5803_ADC_READ
  let w2 := MS5803_write hdr env tr3 [buf0] 1
  let tr5 := HAL_Delay w2.2 2
  let r := MS5803_read hdr env tr5 3
  let result := ADC_assemble (r.2.1.getD 0 0) (r.2.1.getD 1 0) (r.2.1.getD 2 0)
  (result, r.2.2)

/-- The integer variables of `MS5803_get_values` after line 112. -/
structure Values where
  sub : Int
  dT : Int
  temp : Int
  add : Int
  OFF : Int
  SENS : Int
  mult : Int
  pres : Int
  deriving DecidableEq, Repr

/-- The arithmetic of `MS5803_get_values`, lines 103-112, on the calibration table
`MS5803_coefficient` (six `uint16_t` cells) and the two raw `uint32_t` samples.
The float outputs are `temp/100.f` and `pres/10.0f`. -/
def compensate (coefficient : Fin 6 → Nat) (temperature_raw pressure_raw : Nat) : Values :=
  let c (i : Fin 6) : Int := (coefficient i : Int)
  -- int32_t sub = MS5803_coefficient[4] * 256;
  let sub := toS32 (c 4 * 256)
  -- int32_t dT = temperature_raw - sub;   (uint32_t subtraction, then to int32_t)
  let dT := toS32 (toU32 ((temperature_raw : Int) - toU32 sub))
  -- int32_t temp = 2000 + (dT*MS5803_coefficient[5])/(8388608);   (all in int)
  let temp := toS32 (2000 + cdiv (toS32 (dT * c 5)) 8388608)
  -- int64_t add = ((int64_t)MS5803_coefficient[3])*((int64_t)(temperature_raw - sub))/128;
  let add := cdiv (toS64 (c 3 * toU32 ((temperature_raw : Int) - toU32 sub))) 128
  -- int64_t OFF = ((int64_t)MS5803_coefficient[1])*65536+add;
  let OFF := toS64 (toS64 (c 1 * 65536) + add)
  -- int64_t SENS = MS5803_coefficient[0] * (32768) + (MS5803_coefficient[2]*dT)/(256);
  -- (all in int, widened afterwards)
  let SENS := toS32 (toS32 (c 0 * 32768) + cdiv (toS32 (c 2 * dT)) 256)
  -- int64_t mult = pressure_raw*SENS/2097152;
  let mult := cdiv (toS64 ((pressure_raw : Int) * SENS)) 2097152
  -- int32_t pres = (mult-OFF)/32768;
  let pres := toS32 (cdiv (toS64 (mult - OFF)) 32768)
  { sub := sub, dT := dT, temp := temp, add := add, OFF := OFF, SENS := SENS,
    mult := mult, pres := pres }

/-- `MS5803_get_values`, lines 99-114: returns the integer variables and the
extended trace.  The raw samples are `uint32_t` values. -/
def MS5803_get_values (hdr : Header) (env : Env) (coefficient : Fin 6 → Nat)
    (tr : List Event) (prec : precision) : Values × List Event :=
  let t := MS5803_ADC hdr env tr measurement.TEMPERATURE prec
  let p := MS5803_ADC hdr env t.2 measurement.PRESSURE prec
  (compensate coefficient t.1.toNat p.1.toNat, p.2)

/-! ## Observations on a trace -/

/-- Sum of the arguments of the `HAL_Delay` calls of a trace. -/
def delaySum : List Event → Int
  | [] => 0
  | Event.delay ms :: es => ms + delaySum es
  | _ :: es => delaySum es

/-- Sum of the arguments of the `HAL_Delay` calls that precede the first
transmit of a trace. -/
def delayBeforeTransmit : List Event → Int
  | [] => 0
  | Event.transmit _ _ _ _ :: _ => 0
  | Event.delay ms :: es => ms + delayBeforeTransmit es
  | Event.receive _ _ _ :: es => delayBeforeTransmit es

/-- Total delay between the first transmit of a trace and the next one. -/
def delayBetweenWrites : List Event → Int
  | [] => 0
  | Event.transmit _ _ _ _ :: es => delayBeforeTransmit es
  | _ :: es => delayBetweenWrites es

/-! ## Concrete instances -/

/-- A header carrying the command bytes of the MS5803 datasheet: reset `0x1E`, PROM
read from `0xA2`, conversion `0x40`, ADC read `0x00`, channel offsets `0x00` / `0x10`
and oversampling offsets `0x00 .. 0x08`, on the 8-bit bus address `0xEC`. -/
def datasheetHeader : Header where
  MS5803_ADDR := 0xEC
  MS5803_RESET := 0x1E
  MS5803_PROM := 0xA2
  MS5803_ADC_CONV := 0x40
  MS5803_ADC_READ := 0x00
  measurementValue := fun m =>
    match m with
    | measurement.PRESSURE => 0x00
    | measurement.TEMPERATURE => 0x10
  precisionValue := fun p =>
    match p with
    | precision.ADC_256 => 0x00
    | precision.ADC_512 => 0x02
    | precision.ADC_1024 => 0x04
    | precision.ADC_2048 => 0x06
    | precision.ADC_4096 => 0x08

/-- A bus on which every transfer succeeds and every received byte is zero. -/
def idleBus : Env where
  txStatus := fun _ => HAL_StatusTypeDef.HAL_OK
  rxStatus := fun _ => HAL_StatusTypeDef.HAL_OK
  rxByte := fun _ _ => 0

/-- A bus on which every transmit reports `HAL_ERROR`, every receive reports
`HAL_OK` and every received byte is zero. -/
def writeFailsBus : Env where
  txStatus := fun _ => HAL_StatusTypeDef.HAL_ERROR
  rxStatus := fun _ => HAL_StatusTypeDef.HAL_OK
  rxByte := fun _ _ => 0

/-! ## The program state around a call -/

/-- What a call of the driver can see of the program state: the global calibration
table `MS5803_coefficient` and the trace of the bus. -/
structure DriverState where
  MS5803_coefficient : Fin 6 → Nat
  trace : List Event

/-- A call `MS5803_get_values(handle, prec, &temperature, &pressure)` on the program
state.  Lines 99-114 read `MS5803_coefficient` and hold no assignment to it, and the
function has no `static` variable; the two outputs are written through the pointers
the caller passes, which are taken not to point into the table. -/
def MS5803_get_values_call (hdr : Header) (env : Env) (prec : precision) (s : DriverState) :
    Values × DriverState :=
  let r := MS5803_get_values hdr env s.MS5803_coefficient s.trace prec
  (r.1, { MS5803_coefficient := s.MS5803_coefficient, trace := r.2 })

/-! ## The compensation formula of the specification -/

/-- Spec 4.2: `dT = temperature_raw - coeff[4] * 256`, over the integers. -/
def spec_dT (coeff : Fin 6 → Nat) (temperature_raw : Nat) : Int :=
  (temperature_raw : Int) - (coeff 4 : Int) * 256

/-- Spec 4.2: `actual_temp_x100 = 2000 + (dT * coeff[5]) / 8388608`, over the integers
with truncating division. -/
def spec_temp (coeff : Fin 6 → Nat) (temperature_raw : Nat) : Int :=
  2000 + Int.tdiv (spec_dT coeff temperature_raw * (coeff 5 : Int)) 8388608

/-- Spec 4.2: `OFF = coeff[1] * 65536 + (coeff[3] * dT) / 128`. -/
def spec_OFF (coeff : Fin 6 → Nat) (temperature_raw : Nat) : Int :=
  (coeff 1 : Int) * 65536 + Int.tdiv ((coeff 3 : Int) * spec_dT coeff temperature_raw) 128

/-- Spec 4.2: `SENS = coeff[0] * 32768 + (coeff[2] * dT) / 256`. -/
def spec_SENS (coeff : Fin 6 → Nat) (temperature_raw : Nat) : Int :=
  (coeff 0 : Int) * 32768 + Int.tdiv ((coeff 2 : Int) * spec_dT coeff temperature_raw) 256

/-- Spec 4.2: `pressure_x10 = (pressure_raw * SENS / 2097152 - OFF) / 32768`. -/
def spec_pres (coeff : Fin 6 → Nat) (temperature_raw pressure_raw : Nat) : Int :=
  Int.tdiv
    (Int.tdiv ((pressure_raw : Int) * spec_SENS coeff temperature_raw) 2097152
      - spec_OFF coeff temperature_raw) 32768

/-! ## Lemmas on machine arithmetic -/

theorem toS32_eq_self {x : Int} (h1 : -2147483648 ≤ x) (h2 : x < 2147483648) :
    toS32 x = x := by
  unfold toS32; omega

theorem toS32_bounds (x : Int) : -2147483648 ≤ toS32 x ∧ toS32 x < 2147483648 := by
  unfold toS32; omega

theorem toS64_eq_self {x : Int} (h1 : -9223372036854775808 ≤ x)
    (h2 : x < 9223372036854775808) : toS64 x = x := by
  unfold toS64; omega

theorem toU32_bounds (x : Int) : 0 ≤ toU32 x ∧ toU32 x < 4294967296 := by
  unfold toU32; omega

/-- Truncating division of a non-negative dividend is the floor division. -/
theorem cdiv_of_nonneg {a b : Int} (ha : 0 ≤ a) (hb : 0 < b) : cdiv a b = a / b :=
  Int.tdiv_eq_ediv ha (Int.le_of_lt hb)

/-- Truncating division of a negative dividend: divide the magnitude, negate. -/
theorem cdiv_of_neg {a b : Int} (ha : a < 0) (hb : 0 < b) : cdiv a b = -((-a) / b) := by
  have h : cdiv (-a) b = (-a) / b := cdiv_of_nonneg (by omega) hb
  unfold cdiv at h ⊢
  rw [Int.neg_tdiv] at h
  omega

/-- A product of a value in `[0, A]` and a value in `[-B, B]` lies in `[-A*B, A*B]`. -/
theorem mul_bounds {x y A B : Int} (hx0 : 0 ≤ x) (hxA : x ≤ A) (hyl : -B ≤ y) (hyu : y ≤ B) :
    -(A * B) ≤ x * y ∧ x * y ≤ A * B := by
  have hB : 0 ≤ B := by omega
  constructor
  · nlinarith [mul_nonneg hx0 (by omega : (0 : Int) ≤ y + B),
      mul_nonneg (by omega : (0 : Int) ≤ A - x) hB]
  · nlinarith [mul_nonneg hx0 (by omega : (0 : Int) ≤ B - y),
      mul_nonneg (by omega : (0 : Int) ≤ A - x) hB]

/-! ## Unfolding equations of `compensate` -/

theorem compensate_SENS_bounds (coefficient : Fin 6 → Nat) (t p : Nat) :
    -2147483648 ≤ (compensate coefficient t p).SENS
      ∧ (compensate coefficient t p).SENS < 2147483648 :=
  toS32_bounds _

theorem compensate_OFF_eq (coefficient : Fin 6 → Nat) (t p : Nat) :
    (compensate coefficient t p).OFF
      = toS64 (toS64 ((coefficient 1 : Int) * 65536) + cdiv (toS64 ((coefficient 3 : Int)
          * toU32 ((t : Int) - toU32 (compensate coefficient t p).sub))) 128) := by
  simp only [compensate]

theorem compensate_pres_eq (coefficient : Fin 6 → Nat) (t p : Nat) :
    (compensate coefficient t p).pres
      = toS32 (cdiv (toS64 (cdiv (toS64 ((p : Int) * (compensate coefficient t p).SENS))
          2097152 - (compensate coefficient t p).OFF)) 32768) := by
  simp only [compensate]

/-- Range of the offset as lines 108-109 compute it from 16-bit coefficients: the
second factor of line 108 is an unsigned 32-bit value. -/
theorem OFF_core (c1 c3 U : Int) (h1 : 0 ≤ c1 ∧ c1 < 65536) (h3 : 0 ≤ c3 ∧ c3 < 65536)
    (hU : 0 ≤ U ∧ U < 4294967296) :
    0 ≤ toS64 (toS64 (c1 * 65536) + cdiv (toS64 (c3 * U)) 128)
      ∧ toS64 (toS64 (c1 * 65536) + cdiv (toS64 (c3 * U)) 128) < 2203318222848 := by
  have hP3 := mul_bounds (x := c3) (y := U) (A := 65535) (B := 4294967295)
    (by omega) (by omega) (by omega) (by omega)
  have hP3n : 0 ≤ c3 * U := mul_nonneg (by omega) hU.1
  generalize c3 * U = P3 at hP3 hP3n ⊢
  norm_num at hP3
  rw [toS64_eq_self (x := P3) (by omega) (by omega), cdiv_of_nonneg hP3n (by norm_num),
    toS64_eq_self (x := c1 * 65536) (by omega) (by omega),
    toS64_eq_self (x := c1 * 65536 + P3 / 128) (by omega) (by omega)]
  omega

/-- Lines 111-112 on a 24-bit sample, a 32-bit `SENS` and an offset in the range of
`OFF_core`: no intermediate leaves its type. -/
theorem pres_core (p S F : Int) (hp : 0 ≤ p ∧ p < 16777216)
    (hS : -2147483648 ≤ S ∧ S < 2147483648) (hF : 0 ≤ F ∧ F < 2203318222848) :
    toS32 (cdiv (toS64 (cdiv (toS64 (p * S)) 2097152 - F)) 32768)
        = Int.tdiv (Int.tdiv (p * S) 2097152 - F) 32768
      ∧ (-9223372036854775808 ≤ p * S ∧ p * S < 9223372036854775808)
      ∧ (-9223372036854775808 ≤ Int.tdiv (p * S) 2097152 - F
          ∧ Int.tdiv (p * S) 2097152 - F < 9223372036854775808)
      ∧ (-2147483648 ≤ Int.tdiv (Int.tdiv (p * S) 2097152 - F) 32768
          ∧ Int.tdiv (Int.tdiv (p * S) 2097152 - F) 32768 < 2147483648) := by
  have hPS := mul_bounds (x := p) (y := S) (A := 16777215) (B := 2147483648)
    (by omega) (by omega) (by omega) (by omega)
  generalize p * S = PS at hPS ⊢
  norm_num at hPS
  rw [toS64_eq_self (x := PS) (by omega) (by omega)]
  have hM : -17179869184 ≤ cdiv PS 2097152 ∧ cdiv PS 2097152 ≤ 17179869184 := by
    rcases Int.lt_or_le PS 0 with hneg | hpos
    · rw [cdiv_of_neg hneg (by norm_num)]; omega
    · rw [cdiv_of_nonneg hpos (by norm_num)]; omega
  change toS32 (cdiv (toS64 (cdiv PS 2097152 - F)) 32768) = cdiv (cdiv PS 2097152 - F) 32768
    ∧ _ ∧ (_ ≤ cdiv PS 2097152 - F ∧ cdiv PS 2097152 - F < _)
    ∧ (_ ≤ cdiv (cdiv PS 2097152 - F) 32768 ∧ cdiv (cdiv PS 2097152 - F) 32768 < _)
  generalize cdiv PS 2097152 = M at hM ⊢
  rw [toS64_eq_self (x := M - F) (by omega) (by omega)]
  have hQ : -2147483648 ≤ cdiv (M - F) 32768 ∧ cdiv (M - F) 32768 < 2147483648 := by
    rcases Int.lt_or_le (M - F) 0 with hneg | hpos
    · rw [cdiv_of_neg hneg (by norm_num)]; omega
    · rw [cdiv_of_nonneg hpos (by norm_num)]; omega
  rw [toS32_eq_self hQ.1 hQ.2]
  exact ⟨rfl, ⟨by omega, by omega⟩, ⟨by omega, by omega⟩, hQ⟩

/-! ## Lemmas on the bus primitives -/

theorem MS5803_write_one (hdr : Header) (env : Env) (tr : List Event) (b : Int) :
    MS5803_write hdr env tr [b] 1
      = (env.txStatus (tr ++ [Event.transmit ((hdr.MS5803_ADDR : Int) % 65536) [b] 1 1000]),
          tr ++ [Event.transmit ((hdr.MS5803_ADDR : Int) % 65536) [b] 1 1000]) := by
  simp [MS5803_write, HAL_I2C_Master_Transmit, toU16, toU32]

theorem MS5803_read_two (hdr : Header) (env : Env) (tr : List Event) :
    MS5803_read hdr env tr 2
      = (env.rxStatus (tr ++ [Event.receive ((hdr.MS5803_ADDR : Int) % 65536) 2 1000]),
          [((env.rxByte (tr ++ [Event.receive ((hdr.MS5803_ADDR : Int) % 65536) 2 1000]) 0
              : Nat) : Int),
           ((env.rxByte (tr ++ [Event.receive ((hdr.MS5803_ADDR : Int) % 65536) 2 1000]) 1
              : Nat) : Int)],
          tr ++ [Event.receive ((hdr.MS5803_ADDR : Int) % 65536) 2 1000]) := by
  simp [MS5803_read, HAL_I2C_Master_Receive, toU16, toU32, List.range_succ]

theorem MS5803_read_three (hdr : Header) (env : Env) (tr : List Event) :
    MS5803_read hdr env tr 3
      = (env.rxStatus (tr ++ [Event.receive ((hdr.MS5803_ADDR : Int) % 65536) 3 1000]),
          [((env.rxByte (tr ++ [Event.receive ((hdr.MS5803_ADDR : Int) % 65536) 3 1000]) 0
              : Nat) : Int),
           ((env.rxByte (tr ++ [Event.receive ((hdr.MS5803_ADDR : Int) % 65536) 3 1000]) 1
              : Nat) : Int),
           ((env.rxByte (tr ++ [Event.receive ((hdr.MS5803_ADDR : Int) % 65536) 3 1000]) 2
              : Nat) : Int)],
          tr ++ [Event.receive ((hdr.MS5803_ADDR : Int) % 65536) 3 1000]) := by
  simp [MS5803_read, HAL_I2C_Master_Receive, toU16, toU32, List.range_succ]

theorem HAL_Delay_eq (tr : List Event) (ms : Int) (h0 : 0 ≤ ms) (h1 : ms < 4294967296) :
    HAL_Delay tr ms = tr ++ [Event.delay ms] := by
  simp [HAL_Delay, toU32, Int.emod_eq_of_lt h0 h1]

/-- The `uint8_t` value of a sum of three non-negative `int` operands. -/
theorem toU8_sum3 (a b c : Nat) :
    toU8 (toS32 (toS32 ((a : Int) + b) + c)) = ((a + b + c : Nat) : Int) % 256 := by
  unfold toU8 toS32; push_cast; omega

/-- Assembly of three bytes: no `int` operation of line 88 overflows. -/
theorem ADC_assemble_bytes (b0 b1 b2 : Fin 256) :
    ADC_assemble ((b0 : Nat) : Int) ((b1 : Nat) : Int) ((b2 : Nat) : Int)
      = (((b0 : Nat) * 65536 + (b1 : Nat) * 256 + (b2 : Nat) : Nat) : Int) := by
  have h0 := b0.isLt
  have h1 := b1.isLt
  have h2 := b2.isLt
  unfold ADC_assemble toU32 toS32; push_cast; omega

/-- Assembly of two bytes: no `int` operation of line 59 overflows and the
`uint16_t` store keeps the value. -/
theorem coeff_assemble_bytes (b0 b1 : Fin 256) :
    coeff_assemble ((b0 : Nat) : Int) ((b1 : Nat) : Int)
      = (((b0 : Nat) * 256 + (b1 : Nat) : Nat) : Int) := by
  have h0 := b0.isLt
  have h1 := b1.isLt
  unfold coeff_assemble toU16 toS32; push_cast; omega

/-- The whole trace of `MS5803_ADC`. -/
theorem MS5803_ADC_trace_eq (hdr : Header) (env : Env) (tr : List Event) (type : measurement)
    (prec : precision) :
    (MS5803_ADC hdr env tr type prec).2
      = tr ++ ([Event.transmit ((hdr.MS5803_ADDR : Int) % 65536)
              [((hdr.MS5803_ADC_CONV + hdr.measurementValue type + hdr.precisionValue prec
                : Nat) : Int) % 256] 1 1000,
            Event.delay 1]
          ++ (match prec with
              | precision.ADC_256 => [Event.delay 1, Event.delay 3, Event.delay 4,
                  Event.delay 6, Event.delay 10]
              | precision.ADC_512 => [Event.delay 3, Event.delay 4, Event.delay 6,
                  Event.delay 10]
              | precision.ADC_1024 => [Event.delay 4, Event.delay 6, Event.delay 10]
              | precision.ADC_2048 => [Event.delay 6, Event.delay 10]
              | precision.ADC_4096 => [Event.delay 10])
          ++ [Event.transmit ((hdr.MS5803_ADDR : Int) % 65536)
              [(hdr.MS5803_ADC_READ : Int) % 256] 1 1000,
            Event.delay 2,
            Event.receive ((hdr.MS5803_ADDR : Int) % 65536) 3 1000]) := by
  simp only [MS5803_ADC, MS5803_write_one, MS5803_read_three, toU8_sum3]
  cases prec <;>
    simp [ADC_switch, HAL_Delay_eq, toU8]

/-- Adding shifted bytes is the same as or-ing them: the fields do not overlap. -/
theorem bytes_add_eq_or (b0 b1 b2 : Nat) (h1 : b1 < 256) (h2 : b2 < 256) :
    b0 * 65536 + b1 * 256 + b2 = (b0 <<< 16 ||| b1 <<< 8 ||| b2) := by
  have s1 : 2 ^ 16 * b0 + 2 ^ 8 * b1 = (2 ^ 16 * b0 ||| 2 ^ 8 * b1) :=
    Nat.mul_add_lt_is_or (by omega) b0
  have s2 : 2 ^ 8 * (2 ^ 8 * b0 + b1) + b2 = (2 ^ 8 * (2 ^ 8 * b0 + b1) ||| b2) :=
    Nat.mul_add_lt_is_or h2 _
  have e : 256 * (256 * b0 + b1) = 65536 * b0 + 256 * b1 := by omega
  simp only [Nat.reducePow] at s1 s2
  rw [Nat.shiftLeft_eq, Nat.shiftLeft_eq]
  simp only [Nat.reducePow]
  rw [Nat.mul_comm b0, Nat.mul_comm b1, ← s1, ← e, ← s2]

/-- The `uint8_t` address byte of `MS5803_coeff`. -/
theorem toU8_prom (a v : Nat) :
    toU8 (toS32 ((a : Int) + toS32 ((v : Int) * 2))) = ((a + 2 * v : Nat) : Int) % 256 := by
  unfold toU8 toS32; push_cast; omega

/-- The whole trace of `MS5803_coeff`. -/
theorem MS5803_coeff_trace_eq (hdr : Header) (env : Env) (tr : List Event) (value : Nat) :
    (MS5803_coeff hdr env tr value).2.2
      = tr ++ [Event.transmit ((hdr.MS5803_ADDR : Int) % 65536)
            [((hdr.MS5803_PROM + 2 * value : Nat) : Int) % 256] 1 1000,
          Event.delay 2,
          Event.receive ((hdr.MS5803_ADDR : Int) % 65536) 2 1000] := by
  simp only [MS5803_coeff, MS5803_write_one, MS5803_read_two, toU8_prom]
  simp [HAL_Delay_eq]

/-- The value `MS5803_coeff` stores, in terms of the two bytes read. -/
theorem MS5803_coeff_value_eq (hdr : Header) (env : Env) (tr : List Event) (value : Nat) :
    (MS5803_coeff hdr env tr value).2.1
      = (((env.rxByte (MS5803_coeff hdr env tr value).2.2 0 : Nat) * 256
          + (env.rxByte (MS5803_coeff hdr env tr value).2.2 1 : Nat) : Nat) : Int) := by
  simp only [MS5803_coeff, MS5803_write_one, MS5803_read_two, List.getD_cons_zero,
    List.getD_cons_succ, coeff_assemble_bytes]

/-! ## The compensation arithmetic -/

/-- C1: with calibration `coeff[4] = 32768`, `coeff[5] = 28000` and the 24-bit sample
`temperature_raw = 10000000`, the product `dT*coeff[5]` of line 105 leaves the 32-bit
range: `MS5803_get_values` computes `temp = 1747`, whereas the formula
`2000 + ((t - coeff[4]*256) * coeff[5]) / 8388608` over the integers gives `7378`. -/
theorem temp_wraps_at_sample :
    (compensate ![0, 0, 0, 0, 32768, 28000] 10000000 0).dT = 1611392 ∧
    (compensate ![0, 0, 0, 0, 32768, 28000] 10000000 0).temp = 1747 ∧
    2000 + Int.tdiv (((10000000 : Int) - 32768 * 256) * 28000) 8388608 = 7378 ∧
    ¬ ((1611392 : Int) * 28000 < 2147483648) := by
  decide

/-- C2: with `coeff[1] = 40000`, `coeff[3] = 26000`, `coeff[4] = 32768` and
`temperature_raw = 8000000` (below `coeff[4]*256`, so that `dT = -388608`), line 108
multiplies by the unsigned difference `2^32 - 388608`: `MS5803_get_values` computes
`OFF = 874957736000`, whereas `coeff[1]*65536 + (coeff[3]*dT)/128` with the signed
`dT` is `2542504000`. -/
theorem OFF_unsigned_difference_at_sample :
    (compensate ![0, 40000, 0, 26000, 32768, 0] 8000000 0).dT = -388608 ∧
    (compensate ![0, 40000, 0, 26000, 32768, 0] 8000000 0).add = 872336296000 ∧
    (compensate ![0, 40000, 0, 26000, 32768, 0] 8000000 0).OFF = 874957736000 ∧
    (40000 : Int) * 65536 + Int.tdiv (26000 * ((8000000 : Int) - 32768 * 256)) 128
      = 2542504000 := by
  decide

/-- C3: with `coeff[0] = 46000`, `coeff[2] = 29000`, `coeff[4] = 32768` and
`temperature_raw = 10000000`, the product `coeff[2]*dT` of line 110 is formed in
32 bits and wraps before it is widened: `MS5803_get_values` computes
`SENS = 1505319124`, whereas `coeff[0]*32768 + (coeff[2]*dT)/256` over the integers
is `1689868500`. -/
theorem SENS_wraps_at_sample :
    (compensate ![46000, 0, 29000, 0, 32768, 0] 10000000 0).dT = 1611392 ∧
    (compensate ![46000, 0, 29000, 0, 32768, 0] 10000000 0).SENS = 1505319124 ∧
    (46000 : Int) * 32768 + Int.tdiv (29000 * ((10000000 : Int) - 32768 * 256)) 256
      = 1689868500 ∧
    ¬ ((29000 : Int) * 1611392 < 2147483648) := by
  decide

/-- C4: for 16-bit coefficients, a 24-bit `pressure_raw` and every `temperature_raw`
(the 24-bit ones included), the 32-bit `pres` that `MS5803_get_values` computes
equals `((pressure_raw * SENS) / 2097152 - OFF) / 32768` over the integers with
truncating division, for the `SENS` and `OFF` the function computed; the product and
the difference stay within 64 bits and the quotient within 32 bits. -/
theorem pres_eq_formula (coefficient : Fin 6 → Nat) (temperature_raw pressure_raw : Nat)
    (hc : ∀ i, coefficient i < 65536) (hp : pressure_raw < 16777216) :
    (compensate coefficient temperature_raw pressure_raw).pres
        = Int.tdiv
            (Int.tdiv ((pressure_raw : Int)
                * (compensate coefficient temperature_raw pressure_raw).SENS) 2097152
              - (compensate coefficient temperature_raw pressure_raw).OFF) 32768
      ∧ (-9223372036854775808 ≤ (pressure_raw : Int)
            * (compensate coefficient temperature_raw pressure_raw).SENS
          ∧ (pressure_raw : Int) * (compensate coefficient temperature_raw pressure_raw).SENS
            < 9223372036854775808)
      ∧ (-9223372036854775808 ≤ Int.tdiv ((pressure_raw : Int)
              * (compensate coefficient temperature_raw pressure_raw).SENS) 2097152
            - (compensate coefficient temperature_raw pressure_raw).OFF
          ∧ Int.tdiv ((pressure_raw : Int)
              * (compensate coefficient temperature_raw pressure_raw).SENS) 2097152
            - (compensate coefficient temperature_raw pressure_raw).OFF
            < 9223372036854775808)
      ∧ (-2147483648 ≤ Int.tdiv
            (Int.tdiv ((pressure_raw : Int)
                * (compensate coefficient temperature_raw pressure_raw).SENS) 2097152
              - (compensate coefficient temperature_raw pressure_raw).OFF) 32768
          ∧ Int.tdiv
            (Int.tdiv ((pressure_raw : Int)
                * (compensate coefficient temperature_raw pressure_raw).SENS) 2097152
              - (compensate coefficient temperature_raw pressure_raw).OFF) 32768
            < 2147483648) := by
  have h1 := hc 1
  have h3 := hc 3
  have hF : 0 ≤ (compensate coefficient temperature_raw pressure_raw).OFF
      ∧ (compensate coefficient temperature_raw pressure_raw).OFF < 2203318222848 := by
    rw [compensate_OFF_eq]
    exact OFF_core _ _ _ (by omega) (by omega) (toU32_bounds _)
  rw [compensate_pres_eq]
  exact pres_core _ _ _ (by omega) (compensate_SENS_bounds _ _ _) hF

/-- Instance of the C4 equation at the calibration table `[1,2,3,4,5,6]` with raw
samples `1000000` and `2000000`. -/
theorem pres_eq_formula_witness :
    (compensate ![1, 2, 3, 4, 5, 6] 1000000 2000000).pres
        = Int.tdiv
            (Int.tdiv (((2000000 : Nat) : Int)
                * (compensate ![1, 2, 3, 4, 5, 6] 1000000 2000000).SENS) 2097152
              - (compensate ![1, 2, 3, 4, 5, 6] 1000000 2000000).OFF) 32768 :=
  (pres_eq_formula ![1, 2, 3, 4, 5, 6] 1000000 2000000 (by decide) (by decide)).1

/-- C5: with the calibration table `[1,2,3,4,5,6]`, `temperature_raw = 1000000` and
`pressure_raw = 2000000`, the integer stages of `MS5803_get_values` are `dT = 998720`,
`temp = 2000`, `OFF = 162282`, `SENS = 44471`, `mult = 42410` and `pres = -3`; the last
quotient `-119872/32768` is truncated toward zero. -/
theorem compensate_worked_example :
    (compensate ![1, 2, 3, 4, 5, 6] 1000000 2000000).dT = 998720 ∧
    (compensate ![1, 2, 3, 4, 5, 6] 1000000 2000000).temp = 2000 ∧
    (compensate ![1, 2, 3, 4, 5, 6] 1000000 2000000).OFF = 162282 ∧
    (compensate ![1, 2, 3, 4, 5, 6] 1000000 2000000).SENS = 44471 ∧
    (compensate ![1, 2, 3, 4, 5, 6] 1000000 2000000).mult = 42410 ∧
    (compensate ![1, 2, 3, 4, 5, 6] 1000000 2000000).mult
      - (compensate ![1, 2, 3, 4, 5, 6] 1000000 2000000).OFF = -119872 ∧
    (compensate ![1, 2, 3, 4, 5, 6] 1000000 2000000).pres = -3 ∧
    (-119872 : Int) / 32768 = -4 := by
  decide

/-! ## The conversion sequence and the coefficient read -/

/-- C6: the `HAL_Delay` arguments issued by the `switch` of `MS5803_ADC` sum to 24 ms
for `ADC_256`, 23 ms for `ADC_512`, 20 ms for `ADC_1024`, 16 ms for `ADC_2048` and
10 ms for `ADC_4096`: control falls through to the labels BELOW the selected one, so
the sum runs over the selected tier and every higher tier, not over the lower ones
(which would give 1, 4, 8, 14 and 24 ms). -/
theorem ADC_switch_delay_sums :
    delaySum (ADC_switch [] precision.ADC_256) = 24 ∧
    delaySum (ADC_switch [] precision.ADC_512) = 23 ∧
    delaySum (ADC_switch [] precision.ADC_1024) = 20 ∧
    delaySum (ADC_switch [] precision.ADC_2048) = 16 ∧
    delaySum (ADC_switch [] precision.ADC_4096) = 10 ∧
    ADC_switch [] precision.ADC_256
      = [Event.delay 1, Event.delay 3, Event.delay 4, Event.delay 6, Event.delay 10] ∧
    ADC_switch [] precision.ADC_4096 = [Event.delay 10] := by
  decide

/-- C7: for both measurement types, every header and every behaviour of the bus, the
total delay of `MS5803_ADC` between the conversion-start write and the
ADC-read-request write is at least the minimum conversion time of the selected tier:
1 ms for 256, 3 ms for 512, 4 ms for 1024, 6 ms for 2048 and 10 ms for 4096. -/
theorem ADC_conversion_wait_sufficient (hdr : Header) (env : Env) (type : measurement) :
    1 ≤ delayBetweenWrites (MS5803_ADC hdr env [] type precision.ADC_256).2 ∧
    3 ≤ delayBetweenWrites (MS5803_ADC hdr env [] type precision.ADC_512).2 ∧
    4 ≤ delayBetweenWrites (MS5803_ADC hdr env [] type precision.ADC_1024).2 ∧
    6 ≤ delayBetweenWrites (MS5803_ADC hdr env [] type precision.ADC_2048).2 ∧
    10 ≤ delayBetweenWrites (MS5803_ADC hdr env [] type precision.ADC_4096).2 := by
  simp only [MS5803_ADC_trace_eq]
  simp [delayBetweenWrites, delayBeforeTransmit]

/-- C8: for every header, measurement type, precision tier and behaviour of the bus,
`MS5803_ADC` appends exactly this to the trace: a 1-byte write of
`(MS5803_ADC_CONV + type + prec) mod 256`, the 1 ms delay and the delays of the
`switch`, a 1-byte write of `MS5803_ADC_READ` (as `uint8_t`), a 2 ms delay and a
3-byte read; it returns a `uint32_t` value, and neither the trace nor the value
depends on the statuses the bus reports. -/
theorem MS5803_ADC_bus_trace (hdr : Header) (env : Env) (tr : List Event)
    (type : measurement) (prec : precision)
    (txStatus2 rxStatus2 : List Event → HAL_StatusTypeDef) :
    (MS5803_ADC hdr env tr type prec).2
      = tr ++ ([Event.transmit ((hdr.MS5803_ADDR : Int) % 65536)
              [((hdr.MS5803_ADC_CONV + hdr.measurementValue type + hdr.precisionValue prec
                : Nat) : Int) % 256] 1 1000,
            Event.delay 1]
          ++ (match prec with
              | precision.ADC_256 => [Event.delay 1, Event.delay 3, Event.delay 4,
                  Event.delay 6, Event.delay 10]
              | precision.ADC_512 => [Event.delay 3, Event.delay 4, Event.delay 6,
                  Event.delay 10]
              | precision.ADC_1024 => [Event.delay 4, Event.delay 6, Event.delay 10]
              | precision.ADC_2048 => [Event.delay 6, Event.delay 10]
              | precision.ADC_4096 => [Event.delay 10])
          ++ [Event.transmit ((hdr.MS5803_ADDR : Int) % 65536)
              [(hdr.MS5803_ADC_READ : Int) % 256] 1 1000,
            Event.delay 2,
            Event.receive ((hdr.MS5803_ADDR : Int) % 65536) 3 1000])
    ∧ 0 ≤ (MS5803_ADC hdr env tr type prec).1
    ∧ (MS5803_ADC hdr env tr type prec).1 < 4294967296
    ∧ MS5803_ADC hdr { txStatus := txStatus2, rxStatus := rxStatus2, rxByte := env.rxByte }
        tr type prec = MS5803_ADC hdr env tr type prec := by
  refine ⟨MS5803_ADC_trace_eq hdr env tr type prec, ?_, ?_, ?_⟩
  · simp only [MS5803_ADC, MS5803_write_one, MS5803_read_three, List.getD_cons_zero,
      List.getD_cons_succ, ADC_assemble_bytes]
    omega
  · have h0 := (env.rxByte (MS5803_ADC hdr env tr type prec).2 0).isLt
    have h1 := (env.rxByte (MS5803_ADC hdr env tr type prec).2 1).isLt
    have h2 := (env.rxByte (MS5803_ADC hdr env tr type prec).2 2).isLt
    simp only [MS5803_ADC, MS5803_write_one, MS5803_read_three, List.getD_cons_zero,
      List.getD_cons_succ, ADC_assemble_bytes] at h0 h1 h2 ⊢
    omega
  · simp only [MS5803_ADC, MS5803_write_one, MS5803_read_three]

/-- C9: the value `MS5803_ADC` returns is `b0*65536 + b1*256 + b2` for the three
bytes `b0`, `b1`, `b2` the 3-byte read delivered; this equals `b0<<16 | b1<<8 | b2`
and is below `2^24`; the bytes `0xAB, 0xCD, 0xEF` give `0xABCDEF`. -/
theorem MS5803_ADC_result (hdr : Header) (env : Env) (tr : List Event) (type : measurement)
    (prec : precision) :
    (MS5803_ADC hdr env tr type prec).1
      = (((env.rxByte (MS5803_ADC hdr env tr type prec).2 0 : Nat) * 65536
          + (env.rxByte (MS5803_ADC hdr env tr type prec).2 1 : Nat) * 256
          + (env.rxByte (MS5803_ADC hdr env tr type prec).2 2 : Nat) : Nat) : Int)
    ∧ (env.rxByte (MS5803_ADC hdr env tr type prec).2 0 : Nat) * 65536
          + (env.rxByte (MS5803_ADC hdr env tr type prec).2 1 : Nat) * 256
          + (env.rxByte (MS5803_ADC hdr env tr type prec).2 2 : Nat)
        = ((env.rxByte (MS5803_ADC hdr env tr type prec).2 0 : Nat) <<< 16
          ||| (env.rxByte (MS5803_ADC hdr env tr type prec).2 1 : Nat) <<< 8
          ||| (env.rxByte (MS5803_ADC hdr env tr type prec).2 2 : Nat))
    ∧ (MS5803_ADC hdr env tr type prec).1 < 16777216
    ∧ (MS5803_ADC hdr
        { txStatus := env.txStatus, rxStatus := env.rxStatus,
          rxByte := fun _ i => if i = 0 then 0xAB else if i = 1 then 0xCD else 0xEF }
        tr type prec).1 = 0xABCDEF := by
  have key : (MS5803_ADC hdr env tr type prec).1
      = (((env.rxByte (MS5803_ADC hdr env tr type prec).2 0 : Nat) * 65536
          + (env.rxByte (MS5803_ADC hdr env tr type prec).2 1 : Nat) * 256
          + (env.rxByte (MS5803_ADC hdr env tr type prec).2 2 : Nat) : Nat) : Int) := by
    simp only [MS5803_ADC, MS5803_write_one, MS5803_read_three, List.getD_cons_zero,
      List.getD_cons_succ, ADC_assemble_bytes]
  have h0 := (env.rxByte (MS5803_ADC hdr env tr type prec).2 0).isLt
  have h1 := (env.rxByte (MS5803_ADC hdr env tr type prec).2 1).isLt
  have h2 := (env.rxByte (MS5803_ADC hdr env tr type prec).2 2).isLt
  refine ⟨key, ?_, ?_, ?_⟩
  · exact bytes_add_eq_or _ _ _ h1 h2
  · rw [key]; omega
  · simp only [MS5803_ADC, MS5803_write_one, MS5803_read_three, List.getD_cons_zero,
      List.getD_cons_succ, ADC_assemble_bytes]
    simp
    decide

/-- C10: for every coefficient number `index` (0..5 in particular), `MS5803_coeff`
appends to the trace one 1-byte write of `(MS5803_PROM + 2*index) mod 256`, which is
`MS5803_PROM + 2*index` whenever that fits a byte, one 2 ms delay and one 2-byte read,
and stores `byte0*256 + byte1` for the two bytes read; every value of `0..65535` is
stored for some pair of bytes. -/
theorem MS5803_coeff_trace_and_value (hdr : Header) (env : Env) (tr : List Event)
    (index : Nat) :
    (MS5803_coeff hdr env tr index).2.2
      = tr ++ [Event.transmit ((hdr.MS5803_ADDR : Int) % 65536)
            [((hdr.MS5803_PROM + 2 * index : Nat) : Int) % 256] 1 1000,
          Event.delay 2,
          Event.receive ((hdr.MS5803_ADDR : Int) % 65536) 2 1000]
    ∧ (hdr.MS5803_PROM + 2 * index < 256 →
        (MS5803_coeff hdr env tr index).2.2
          = tr ++ [Event.transmit ((hdr.MS5803_ADDR : Int) % 65536)
                [((hdr.MS5803_PROM + 2 * index : Nat) : Int)] 1 1000,
              Event.delay 2,
              Event.receive ((hdr.MS5803_ADDR : Int) % 65536) 2 1000])
    ∧ (MS5803_coeff hdr env tr index).2.1
        = (((env.rxByte (MS5803_coeff hdr env tr index).2.2 0 : Nat) * 256
            + (env.rxByte (MS5803_coeff hdr env tr index).2.2 1 : Nat) : Nat) : Int)
    ∧ (∀ v : Fin 65536, ∃ env2 : Env,
        (MS5803_coeff hdr env2 tr index).2.1 = ((v : Nat) : Int)) := by
  refine ⟨MS5803_coeff_trace_eq hdr env tr index, ?_, MS5803_coeff_value_eq hdr env tr index,
    ?_⟩
  · intro h
    have hb : ((hdr.MS5803_PROM + 2 * index : Nat) : Int) % 256
        = ((hdr.MS5803_PROM + 2 * index : Nat) : Int) := by omega
    rw [MS5803_coeff_trace_eq, hb]
  · intro v
    have hv := v.isLt
    refine ⟨{ txStatus := env.txStatus, rxStatus := env.rxStatus,
              rxByte := fun _ i => if i = 0 then ⟨(v : Nat) / 256, by omega⟩
                else ⟨(v : Nat) % 256, by omega⟩ }, ?_⟩
    rw [MS5803_coeff_value_eq]
    simp
    omega

/-- Instance of the C10 trace at coefficient number 3 with the command bytes of
`datasheetHeader` on a bus that answers `HAL_OK` and zero bytes: the address byte
`0xA2 + 6` fits a byte and is sent as it is. -/
theorem MS5803_coeff_trace_and_value_witness :
    datasheetHeader.MS5803_PROM + 2 * 3 < 256 ∧
    (MS5803_coeff datasheetHeader idleBus [] 3).2.2
        = [] ++ [Event.transmit ((datasheetHeader.MS5803_ADDR : Int) % 65536)
                [((datasheetHeader.MS5803_PROM + 2 * 3 : Nat) : Int)] 1 1000,
              Event.delay 2,
              Event.receive ((datasheetHeader.MS5803_ADDR : Int) % 65536) 2 1000] :=
  ⟨by decide, (MS5803_coeff_trace_and_value datasheetHeader idleBus [] 3).2.1 (by decide)⟩

/-! ## Statuses, reset and the sequence of `MS5803_get_values` -/

/-- The status `MS5803_coeff` returns, in terms of what the bus reported. -/
theorem MS5803_coeff_status_eq (hdr : Header) (env : Env) (tr : List Event) (value : Nat) :
    (MS5803_coeff hdr env tr value).1 = env.rxStatus (MS5803_coeff hdr env tr value).2.2 := by
  simp only [MS5803_coeff, MS5803_write_one, MS5803_read_two]

/-- The value `MS5803_ADC` returns, in terms of the three bytes read. -/
theorem MS5803_ADC_value_eq (hdr : Header) (env : Env) (tr : List Event) (type : measurement)
    (prec : precision) :
    (MS5803_ADC hdr env tr type prec).1
      = (((env.rxByte (MS5803_ADC hdr env tr type prec).2 0 : Nat) * 65536
          + (env.rxByte (MS5803_ADC hdr env tr type prec).2 1 : Nat) * 256
          + (env.rxByte (MS5803_ADC hdr env tr type prec).2 2 : Nat) : Nat) : Int) := by
  simp only [MS5803_ADC, MS5803_write_one, MS5803_read_three, List.getD_cons_zero,
    List.getD_cons_succ, ADC_assemble_bytes]

/-- C11 fails as stated: on a bus whose transmit reports `HAL_ERROR` and whose receive
reports `HAL_OK`, `MS5803_coeff` returns `HAL_OK`, which is not the status of the
write step. -/
theorem MS5803_coeff_drops_write_status :
    writeFailsBus.txStatus
        [Event.transmit 0xEC [0xA2] 1 1000] = HAL_StatusTypeDef.HAL_ERROR ∧
    (MS5803_coeff datasheetHeader writeFailsBus [] 0).2.2
      = [Event.transmit 0xEC [0xA2] 1 1000, Event.delay 2, Event.receive 0xEC 2 1000] ∧
    (MS5803_coeff datasheetHeader writeFailsBus [] 0).1 = HAL_StatusTypeDef.HAL_OK ∧
    (MS5803_coeff datasheetHeader writeFailsBus [] 0).1
      ≠ writeFailsBus.txStatus [Event.transmit 0xEC [0xA2] 1 1000] := by
  decide

/-- C11 (amended): for every coefficient number and every behaviour of the bus, the
status `MS5803_coeff` returns is the status the 2-byte read reported; the status the
address write reported is overwritten on line 58 and has no influence on it. -/
theorem MS5803_coeff_returns_read_status (hdr : Header) (env : Env) (tr : List Event)
    (index : Nat) (txStatus2 : List Event → HAL_StatusTypeDef) :
    (MS5803_coeff hdr env tr index).1
      = env.rxStatus (tr ++ [Event.transmit ((hdr.MS5803_ADDR : Int) % 65536)
            [((hdr.MS5803_PROM + 2 * index : Nat) : Int) % 256] 1 1000,
          Event.delay 2,
          Event.receive ((hdr.MS5803_ADDR : Int) % 65536) 2 1000])
    ∧ (MS5803_coeff hdr
          { txStatus := txStatus2, rxStatus := env.rxStatus, rxByte := env.rxByte }
          tr index).1 = (MS5803_coeff hdr env tr index).1 := by
  constructor
  · rw [MS5803_coeff_status_eq, MS5803_coeff_trace_eq]
  · rw [MS5803_coeff_status_eq, MS5803_coeff_status_eq, MS5803_coeff_trace_eq,
      MS5803_coeff_trace_eq]

/-- C12: for every header and every behaviour of the bus, `MS5803_reset` appends to
the trace exactly one 1-byte write of `MS5803_RESET` (as `uint8_t`) followed by one
delay of 3 ms, no read, and returns the status that write reported, whatever it
is. -/
theorem MS5803_reset_trace_and_status (hdr : Header) (env : Env) (tr : List Event) :
    (MS5803_reset hdr env tr).2
      = tr ++ [Event.transmit ((hdr.MS5803_ADDR : Int) % 65536)
            [(hdr.MS5803_RESET : Int) % 256] 1 1000,
          Event.delay 3]
    ∧ (MS5803_reset hdr env tr).1
      = env.txStatus (tr ++ [Event.transmit ((hdr.MS5803_ADDR : Int) % 65536)
            [(hdr.MS5803_RESET : Int) % 256] 1 1000])
    ∧ (∀ s : HAL_StatusTypeDef,
        (MS5803_reset hdr
            { txStatus := fun _ => s, rxStatus := env.rxStatus, rxByte := env.rxByte }
            tr).1 = s
        ∧ (MS5803_reset hdr
            { txStatus := fun _ => s, rxStatus := env.rxStatus, rxByte := env.rxByte }
            tr).2
          = tr ++ [Event.transmit ((hdr.MS5803_ADDR : Int) % 65536)
                [(hdr.MS5803_RESET : Int) % 256] 1 1000,
              Event.delay 3]) := by
  simp [MS5803_reset, HAL_I2C_Master_Transmit, HAL_Delay, toU8, toU16, toU32]

/-! ## More unfolding equations of `compensate` and the exact cases -/

theorem compensate_sub_eq (coefficient : Fin 6 → Nat) (t p : Nat) :
    (compensate coefficient t p).sub = toS32 ((coefficient 4 : Int) * 256) := by
  simp only [compensate]

theorem compensate_dT_eq (coefficient : Fin 6 → Nat) (t p : Nat) :
    (compensate coefficient t p).dT
      = toS32 (toU32 ((t : Int) - toU32 (toS32 ((coefficient 4 : Int) * 256)))) := by
  simp only [compensate]

theorem compensate_temp_eq (coefficient : Fin 6 → Nat) (t p : Nat) :
    (compensate coefficient t p).temp
      = toS32 (2000 + cdiv (toS32 ((compensate coefficient t p).dT
          * (coefficient 5 : Int))) 8388608) := by
  simp only [compensate]

theorem compensate_SENS_eq (coefficient : Fin 6 → Nat) (t p : Nat) :
    (compensate coefficient t p).SENS
      = toS32 (toS32 ((coefficient 0 : Int) * 32768)
          + cdiv (toS32 ((coefficient 2 : Int) * (compensate coefficient t p).dT)) 256) := by
  simp only [compensate]

/-- Lines 103-104 on a 24-bit sample and a 16-bit coefficient: the unsigned
subtraction followed by the conversion to `int32_t` is the exact difference. -/
theorem dT_core (t c4 : Int) (ht : 0 ≤ t ∧ t < 16777216) (h4 : 0 ≤ c4 ∧ c4 < 65536) :
    toS32 (toU32 (t - toU32 (toS32 (c4 * 256)))) = t - c4 * 256 := by
  unfold toS32 toU32; omega

/-- The unsigned difference of line 108 is the exact difference when the sample is
not below `coeff[4]*256`. -/
theorem udiff_core (t c4 : Int) (ht : 0 ≤ t ∧ t < 16777216) (h4 : 0 ≤ c4 ∧ c4 < 65536)
    (hge : c4 * 256 ≤ t) : toU32 (t - toU32 (toS32 (c4 * 256))) = t - c4 * 256 := by
  unfold toS32 toU32; omega

/-- Line 105 when the product fits 32 bits. -/
theorem temp_core (D c5 : Int) (hD : 0 ≤ D) (h5 : 0 ≤ c5) (h : D * c5 < 2147483648) :
    toS32 (2000 + cdiv (toS32 (D * c5)) 8388608) = 2000 + Int.tdiv (D * c5) 8388608 := by
  have hP : 0 ≤ D * c5 := mul_nonneg hD h5
  generalize D * c5 = P at h hP ⊢
  rw [toS32_eq_self (x := P) (by omega) (by omega)]
  change toS32 (2000 + cdiv P 8388608) = 2000 + cdiv P 8388608
  rw [cdiv_of_nonneg hP (by norm_num)]
  exact toS32_eq_self (by omega) (by omega)

/-- Line 110 when the product and the sum fit 32 bits. -/
theorem SENS_core (c0 c2 D : Int) (h0 : 0 ≤ c0 ∧ c0 < 65536) (h2 : 0 ≤ c2) (hD : 0 ≤ D)
    (hP : c2 * D < 2147483648)
    (hS : c0 * 32768 + Int.tdiv (c2 * D) 256 < 2147483648) :
    toS32 (toS32 (c0 * 32768) + cdiv (toS32 (c2 * D)) 256)
      = c0 * 32768 + Int.tdiv (c2 * D) 256 := by
  have hP0 : 0 ≤ c2 * D := mul_nonneg h2 hD
  generalize c2 * D = P at hP hP0 hS ⊢
  rw [toS32_eq_self (x := P) (by omega) (by omega),
    toS32_eq_self (x := c0 * 32768) (by omega) (by omega)]
  change toS32 (c0 * 32768 + cdiv P 256) = c0 * 32768 + cdiv P 256
  change c0 * 32768 + cdiv P 256 < 2147483648 at hS
  rw [cdiv_of_nonneg hP0 (by norm_num)] at hS ⊢
  exact toS32_eq_self (by omega) hS

/-- Lines 108-109 when the second factor is the exact non-negative `dT`. -/
theorem OFF_exact_core (c1 c3 D : Int) (h1 : 0 ≤ c1 ∧ c1 < 65536) (h3 : 0 ≤ c3 ∧ c3 < 65536)
    (hD : 0 ≤ D ∧ D < 16777216) :
    toS64 (toS64 (c1 * 65536) + cdiv (toS64 (c3 * D)) 128)
      = c1 * 65536 + Int.tdiv (c3 * D) 128 := by
  have hP := mul_bounds (x := c3) (y := D) (A := 65535) (B := 16777215)
    (by omega) (by omega) (by omega) (by omega)
  have hP0 : 0 ≤ c3 * D := mul_nonneg h3.1 hD.1
  generalize c3 * D = P at hP hP0 ⊢
  norm_num at hP
  rw [toS64_eq_self (x := P) (by omega) (by omega),
    toS64_eq_self (x := c1 * 65536) (by omega) (by omega)]
  change toS64 (c1 * 65536 + cdiv P 128) = c1 * 65536 + cdiv P 128
  rw [cdiv_of_nonneg hP0 (by norm_num)]
  exact toS64_eq_self (by omega) (by omega)

/-! ## `MS5803_get_values`: sequence, independence, state and exactness -/

/-- C13: for every precision, the events `MS5803_get_values` appends to the trace are
those of `MS5803_ADC(TEMPERATURE, prec)` followed by those of
`MS5803_ADC(PRESSURE, prec)` and nothing else; the value the first conversion returns
(the three bytes of the first read) is `temperature_raw`, the value the second one
returns is `pressure_raw`. -/
theorem MS5803_get_values_sequence (hdr : Header) (env : Env) (coefficient : Fin 6 → Nat)
    (tr : List Event) (prec : precision) :
    (MS5803_get_values hdr env coefficient tr prec).2
      = tr ++ (MS5803_ADC hdr env [] measurement.TEMPERATURE prec).2
          ++ (MS5803_ADC hdr env [] measurement.PRESSURE prec).2
    ∧ (MS5803_get_values hdr env coefficient tr prec).2
      = (MS5803_ADC hdr env (MS5803_ADC hdr env tr measurement.TEMPERATURE prec).2
          measurement.PRESSURE prec).2
    ∧ (MS5803_get_values hdr env coefficient tr prec).1
      = compensate coefficient
          ((env.rxByte (MS5803_ADC hdr env tr measurement.TEMPERATURE prec).2 0 : Nat) * 65536
            + (env.rxByte (MS5803_ADC hdr env tr measurement.TEMPERATURE prec).2 1 : Nat) * 256
            + (env.rxByte (MS5803_ADC hdr env tr measurement.TEMPERATURE prec).2 2 : Nat))
          ((env.rxByte (MS5803_get_values hdr env coefficient tr prec).2 0 : Nat) * 65536
            + (env.rxByte (MS5803_get_values hdr env coefficient tr prec).2 1 : Nat) * 256
            + (env.rxByte (MS5803_get_values hdr env coefficient tr prec).2 2 : Nat))
    ∧ (MS5803_ADC hdr env tr measurement.TEMPERATURE prec).1
      = (((env.rxByte (MS5803_ADC hdr env tr measurement.TEMPERATURE prec).2 0 : Nat) * 65536
            + (env.rxByte (MS5803_ADC hdr env tr measurement.TEMPERATURE prec).2 1 : Nat) * 256
            + (env.rxByte (MS5803_ADC hdr env tr measurement.TEMPERATURE prec).2 2 : Nat)
            : Nat) : Int)
    ∧ (MS5803_ADC hdr env (MS5803_ADC hdr env tr measurement.TEMPERATURE prec).2
          measurement.PRESSURE prec).1
      = (((env.rxByte (MS5803_get_values hdr env coefficient tr prec).2 0 : Nat) * 65536
            + (env.rxByte (MS5803_get_values hdr env coefficient tr prec).2 1 : Nat) * 256
            + (env.rxByte (MS5803_get_values hdr env coefficient tr prec).2 2 : Nat)
            : Nat) : Int) := by
  have htr : (MS5803_get_values hdr env coefficient tr prec).2
      = (MS5803_ADC hdr env (MS5803_ADC hdr env tr measurement.TEMPERATURE prec).2
          measurement.PRESSURE prec).2 := by
    simp only [MS5803_get_values]
  refine ⟨?_, htr, ?_, MS5803_ADC_value_eq hdr env tr measurement.TEMPERATURE prec, ?_⟩
  · rw [htr, MS5803_ADC_trace_eq hdr env _ measurement.PRESSURE,
      MS5803_ADC_trace_eq hdr env tr measurement.TEMPERATURE,
      MS5803_ADC_trace_eq hdr env [] measurement.PRESSURE,
      MS5803_ADC_trace_eq hdr env [] measurement.TEMPERATURE]
    simp only [List.nil_append, List.append_assoc]
  · rw [htr]
    simp only [MS5803_get_values]
    rw [MS5803_ADC_value_eq hdr env tr measurement.TEMPERATURE,
      MS5803_ADC_value_eq hdr env _ measurement.PRESSURE, Int.toNat_ofNat, Int.toNat_ofNat]
  · rw [htr]
    exact MS5803_ADC_value_eq hdr env _ measurement.PRESSURE prec

/-- C14: the integer temperature `temp` of `MS5803_get_values` is the same for any two
runs that agree on `temperature_raw`, `coeff[4]` and `coeff[5]`, however they differ in
`pressure_raw` and in `coeff[0..3]`. -/
theorem temp_independent_of_pressure_branch (coefficient coefficient2 : Fin 6 → Nat)
    (temperature_raw pressure_raw pressure_raw2 : Nat)
    (h4 : coefficient 4 = coefficient2 4) (h5 : coefficient 5 = coefficient2 5) :
    (compensate coefficient temperature_raw pressure_raw).temp
      = (compensate coefficient2 temperature_raw pressure_raw2).temp := by
  rw [compensate_temp_eq, compensate_temp_eq, compensate_dT_eq, compensate_dT_eq, h4, h5]

/-- Instance of the C14 independence: two calibration tables that share only `coeff[4]`
and `coeff[5]`, with different pressure samples. -/
theorem temp_independent_of_pressure_branch_witness :
    (compensate ![1, 2, 3, 4, 5, 6] 1000000 2000000).temp
      = (compensate ![9, 8, 7, 60000, 5, 6] 1000000 77).temp :=
  temp_independent_of_pressure_branch ![1, 2, 3, 4, 5, 6] ![9, 8, 7, 60000, 5, 6]
    1000000 2000000 77 (by decide) (by decide)

/-- C15: a call of `MS5803_get_values` leaves the six entries of `MS5803_coefficient`
as they were, and two calls (on any two states and buses) with the same calibration
table and the same bytes delivered by the two 3-byte reads compute the same integer
variables, `temp` and `pres` among them. -/
theorem MS5803_get_values_no_hidden_state (hdr : Header) (env env2 : Env) (prec : precision)
    (s s2 : DriverState)
    (hc : s2.MS5803_coefficient = s.MS5803_coefficient)
    (ht : ∀ i, env2.rxByte (MS5803_ADC hdr env2 s2.trace measurement.TEMPERATURE prec).2 i
        = env.rxByte (MS5803_ADC hdr env s.trace measurement.TEMPERATURE prec).2 i)
    (hp : ∀ i, env2.rxByte (MS5803_get_values_call hdr env2 prec s2).2.trace i
        = env.rxByte (MS5803_get_values_call hdr env prec s).2.trace i) :
    (∀ i, (MS5803_get_values_call hdr env prec s).2.MS5803_coefficient i
        = s.MS5803_coefficient i)
    ∧ (MS5803_get_values_call hdr env2 prec s2).1 = (MS5803_get_values_call hdr env prec s).1
    ∧ (MS5803_get_values_call hdr env2 prec s2).1.temp
        = (MS5803_get_values_call hdr env prec s).1.temp
    ∧ (MS5803_get_values_call hdr env2 prec s2).1.pres
        = (MS5803_get_values_call hdr env prec s).1.pres := by
  have hv : (MS5803_get_values_call hdr env2 prec s2).1
      = (MS5803_get_values_call hdr env prec s).1 := by
    simp only [MS5803_get_values_call, MS5803_get_values] at hp ⊢
    rw [MS5803_ADC_value_eq hdr env2 s2.trace measurement.TEMPERATURE,
      MS5803_ADC_value_eq hdr env2 _ measurement.PRESSURE,
      MS5803_ADC_value_eq hdr env s.trace measurement.TEMPERATURE,
      MS5803_ADC_value_eq hdr env _ measurement.PRESSURE,
      ht 0, ht 1, ht 2, hp 0, hp 1, hp 2, hc]
  refine ⟨fun i => ?_, hv, ?_, ?_⟩
  · simp only [MS5803_get_values_call]
  · rw [hv]
  · rw [hv]

/-- Instance of the C15 determinism: a second call right after a first one, on a bus
that always delivers the same bytes, with the table `[1,2,3,4,5,6]`. -/
theorem MS5803_get_values_no_hidden_state_witness :
    (MS5803_get_values_call datasheetHeader idleBus precision.ADC_256
        (MS5803_get_values_call datasheetHeader idleBus precision.ADC_256
          { MS5803_coefficient := ![1, 2, 3, 4, 5, 6], trace := [] }).2).1
      = (MS5803_get_values_call datasheetHeader idleBus precision.ADC_256
          { MS5803_coefficient := ![1, 2, 3, 4, 5, 6], trace := [] }).1 :=
  (MS5803_get_values_no_hidden_state datasheetHeader idleBus idleBus precision.ADC_256
    { MS5803_coefficient := ![1, 2, 3, 4, 5, 6], trace := [] }
    (MS5803_get_values_call datasheetHeader idleBus precision.ADC_256
      { MS5803_coefficient := ![1, 2, 3, 4, 5, 6], trace := [] }).2
    rfl (fun _ => rfl) (fun _ => rfl)).2.1

/-- C16: for a 24-bit `temperature_raw` and a 16-bit `coeff[4]`, the `int32_t` `dT` of
`MS5803_get_values` is the integer `temperature_raw - coeff[4]*256`, negative
differences included, and lies strictly between `-2^24` and `2^24`. -/
theorem dT_exact (coefficient : Fin 6 → Nat) (temperature_raw pressure_raw : Nat)
    (ht : temperature_raw < 16777216) (h4 : coefficient 4 < 65536) :
    (compensate coefficient temperature_raw pressure_raw).dT
        = (temperature_raw : Int) - (coefficient 4 : Int) * 256
      ∧ -16777216 < (compensate coefficient temperature_raw pressure_raw).dT
      ∧ (compensate coefficient temperature_raw pressure_raw).dT < 16777216 := by
  rw [compensate_dT_eq, dT_core _ _ (by omega) (by omega)]
  omega

/-- Instance of the C16 equation with a negative difference: `coeff[4] = 32768` and
`temperature_raw = 8000000`. -/
theorem dT_exact_witness :
    (compensate ![0, 0, 0, 0, 32768, 0] 8000000 0).dT = -388608 ∧
    (compensate ![0, 0, 0, 0, 32768, 0] 8000000 0).dT
      = ((8000000 : Nat) : Int) - ((![0, 0, 0, 0, 32768, 0] 4 : Nat) : Int) * 256 :=
  ⟨by decide, (dT_exact ![0, 0, 0, 0, 32768, 0] 8000000 0 (by decide) (by decide)).1⟩

/-- C17: for 24-bit samples and 16-bit coefficients, whenever
`temperature_raw >= coeff[4]*256`, `dT*coeff[5] < 2^31`, `coeff[2]*dT < 2^31` and
`coeff[0]*32768 + (coeff[2]*dT)/256 < 2^31`, the `temp` and `pres` that
`MS5803_get_values` computes (and `dT`, `OFF`, `SENS` on the way) equal the formula of
section 4.2 over the integers with truncating division. -/
theorem compensate_eq_spec_of_no_overflow (coefficient : Fin 6 → Nat)
    (temperature_raw pressure_raw : Nat)
    (hc : ∀ i, coefficient i < 65536) (ht : temperature_raw < 16777216)
    (hp : pressure_raw < 16777216)
    (hge : coefficient 4 * 256 ≤ temperature_raw)
    (h5 : spec_dT coefficient temperature_raw * (coefficient 5 : Int) < 2147483648)
    (h2 : (coefficient 2 : Int) * spec_dT coefficient temperature_raw < 2147483648)
    (hS : spec_SENS coefficient temperature_raw < 2147483648) :
    (compensate coefficient temperature_raw pressure_raw).temp
        = spec_temp coefficient temperature_raw
      ∧ (compensate coefficient temperature_raw pressure_raw).pres
        = spec_pres coefficient temperature_raw pressure_raw
      ∧ (compensate coefficient temperature_raw pressure_raw).dT
        = spec_dT coefficient temperature_raw
      ∧ (compensate coefficient temperature_raw pressure_raw).OFF
        = spec_OFF coefficient temperature_raw
      ∧ (compensate coefficient temperature_raw pressure_raw).SENS
        = spec_SENS coefficient temperature_raw := by
  have h0 := hc 0
  have h1 := hc 1
  have h3 := hc 3
  have h4 := hc 4
  have hD0 : 0 ≤ spec_dT coefficient temperature_raw := by unfold spec_dT; omega
  have hD1 : spec_dT coefficient temperature_raw < 16777216 := by unfold spec_dT; omega
  have hdT : (compensate coefficient temperature_raw pressure_raw).dT
      = spec_dT coefficient temperature_raw := by
    rw [compensate_dT_eq, dT_core _ _ (by omega) (by omega)]
    rfl
  have htemp : (compensate coefficient temperature_raw pressure_raw).temp
      = spec_temp coefficient temperature_raw := by
    rw [compensate_temp_eq, hdT, temp_core _ _ hD0 (by omega) h5]
    rfl
  have hSENS : (compensate coefficient temperature_raw pressure_raw).SENS
      = spec_SENS coefficient temperature_raw := by
    rw [compensate_SENS_eq, hdT, SENS_core _ _ _ (by omega) (by omega) hD0 h2 hS]
    rfl
  have hOFF : (compensate coefficient temperature_raw pressure_raw).OFF
      = spec_OFF coefficient temperature_raw := by
    rw [compensate_OFF_eq, compensate_sub_eq, udiff_core _ _ (by omega) (by omega) (by omega)]
    exact OFF_exact_core _ _ _ (by omega) (by omega) ⟨hD0, hD1⟩
  have hF : 0 ≤ (compensate coefficient temperature_raw pressure_raw).OFF
      ∧ (compensate coefficient temperature_raw pressure_raw).OFF < 2203318222848 := by
    rw [compensate_OFF_eq]
    exact OFF_core _ _ _ (by omega) (by omega) (toU32_bounds _)
  have hpres : (compensate coefficient temperature_raw pressure_raw).pres
      = spec_pres coefficient temperature_raw pressure_raw := by
    rw [compensate_pres_eq,
      (pres_core _ _ _ (by omega) (compensate_SENS_bounds _ _ _) hF).1, hSENS, hOFF]
    rfl
  exact ⟨htemp, hpres, hdT, hOFF, hSENS⟩

/-- Instance of the C17 equations at the calibration table `[1,2,3,4,5,6]` with raw
samples `1000000` and `2000000`, where no product leaves 32 bits. -/
theorem compensate_eq_spec_of_no_overflow_witness :
    (compensate ![1, 2, 3, 4, 5, 6] 1000000 2000000).temp
        = spec_temp ![1, 2, 3, 4, 5, 6] 1000000
      ∧ (compensate ![1, 2, 3, 4, 5, 6] 1000000 2000000).pres
        = spec_pres ![1, 2, 3, 4, 5, 6] 1000000 2000000 :=
  ⟨(compensate_eq_spec_of_no_overflow ![1, 2, 3, 4, 5, 6] 1000000 2000000 (by decide)
      (by decide) (by decide) (by decide) (by decide) (by decide) (by decide)).1,
    (compensate_eq_spec_of_no_overflow ![1, 2, 3, 4, 5, 6] 1000000 2000000 (by decide)
      (by decide) (by decide) (by decide) (by decide) (by decide) (by decide)).2.1⟩

end MS5803
